import Mathlib

/-!
Shallow embedding of the credit-gated analysis pipeline of the res-server
backend: the paid-analysis route handlers of src/routes/resumes.js
(POST /:resumeId/detailed-ats-report, POST /:resumeId/job-optimization,
POST /:resumeId/analyze-changes) and the checkout.session.completed branch
of the payment webhook of src/routes/payments.js, over the Prisma data
model of src/prisma/schema.prisma.  External collaborators (text
extraction, the Gemini analysis calls) are modelled as an `Option` result
parameter: `none` is a thrown error, `some a` a successful structured
result.  Prisma row lookups/updates are modelled over lists of records;
`{ decrement: 1 }` / `{ increment: 1 }` become plain integer arithmetic on
the matched row, which is what the SQL `SET c = c - 1` does.
-/

namespace ResServer

/-- User row, from `model User` of src/prisma/schema.prisma (the fields the
handlers touch). -/
structure User where
  id : Int
  subscriptionStatus : String
  stripeSubscriptionId : Option String
  ppuAtsCredits : Int
  ppuOptimizationCredits : Int
deriving DecidableEq, Repr

/-- Resume row, from `model Resume` of src/prisma/schema.prisma (the fields
the handlers touch).  Score/feedback payloads are abstracted to
`Option Int` / `Option String`; `completedAt` to a set/unset flag. -/
structure Resume where
  id : Int
  userId : Option Int
  fileUrl : Option String
  status : String
  jobDescription : Option String
  atsScore : Option Int
  optimizationScore : Option Int
  keywordAnalysis : Option String
  feedback : Option String
  ppuOptimizationClicksRemaining : Option Int
  completedAt : Bool
deriving DecidableEq, Repr

/-- ReviewOrder row, from `model ReviewOrder` of src/prisma/schema.prisma. -/
structure ReviewOrder where
  userId : Int
  resumeId : Int
  status : String
  paymentStatus : Option String
  stripePaymentIntentId : Option String
deriving DecidableEq, Repr

/-- Database state: the three tables the claims are about. -/
structure DB where
  users : List User
  resumes : List Resume
  reviewOrders : List ReviewOrder
deriving DecidableEq, Repr

/-- prisma.user.findUnique where id. -/
def findUser (db : DB) (uid : Int) : Option User :=
  db.users.find? (fun u => u.id == uid)

/-- prisma.resume.findUnique where id. -/
def findResume (db : DB) (rid : Int) : Option Resume :=
  db.resumes.find? (fun r => r.id == rid)

/-- prisma.user.update where id: apply `f` to every row with the given id. -/
def updateUserRec (db : DB) (uid : Int) (f : User → User) : DB :=
  { db with users := db.users.map (fun u => if u.id == uid then f u else u) }

/-- prisma.resume.update where id: apply `f` to every row with the given id. -/
def updateResumeRec (db : DB) (rid : Int) (f : Resume → Resume) : DB :=
  { db with resumes := db.resumes.map (fun r => if r.id == rid then f r else r) }

/-- JavaScript falsiness of an optional string field (`!resume.jobDescription`):
missing (null) or empty. -/
def jsFalsy : Option String → Bool
  | none => true
  | some s => s == ""

/-- prisma user update data { ppuAtsCredits: { decrement: 1 } }. -/
def decAtsCredit (v : User) : User := { v with ppuAtsCredits := v.ppuAtsCredits - 1 }

/-- prisma user update data { ppuAtsCredits: { increment: 1 } }. -/
def incAtsCredit (v : User) : User := { v with ppuAtsCredits := v.ppuAtsCredits + 1 }

/-- prisma user update data { ppuOptimizationCredits: { decrement: 1 } }. -/
def decOptCredit (v : User) : User :=
  { v with ppuOptimizationCredits := v.ppuOptimizationCredits - 1 }

/-- prisma user update data { ppuOptimizationCredits: { increment: 1 } }. -/
def incOptCredit (v : User) : User :=
  { v with ppuOptimizationCredits := v.ppuOptimizationCredits + 1 }

/-- prisma resume update data { status: s }. -/
def setStatus (s : String) (r : Resume) : Resume := { r with status := s }

/-- prisma resume update data { ppuOptimizationClicksRemaining: n }. -/
def setClicks (n : Int) (r : Resume) : Resume :=
  { r with ppuOptimizationClicksRemaining := some n }

/-- prisma resume update data { ppuOptimizationClicksRemaining: { decrement: 1 } }. -/
def decClicks (r : Resume) : Resume :=
  { r with ppuOptimizationClicksRemaining :=
      r.ppuOptimizationClicksRemaining.map (fun c => c - 1) }

/-- prisma user update of the webhook subscription branch. -/
def activatePremium (ss : Option String) (v : User) : User :=
  { v with stripeSubscriptionId := ss, subscriptionStatus := "premium" }

/-- HTTP JSON response, with the body fields the modelled handlers emit.
`none` means the field is absent from (or null in) the body. -/
structure ApiResponse where
  status : Nat
  error : Option String
  message : Option String
  resumeId : Option Int
  atsScore : Option Int
  feedback : Option String
  optimizationScore : Option Int
  keywordAnalysis : Option String
  suggestions : Option String
  ppuClicksRemaining : Option Int
deriving DecidableEq, Repr

/-- Response with a status code and an otherwise empty body. -/
def plainResp (code : Nat) : ApiResponse :=
  ⟨code, none, none, none, none, none, none, none, none, none⟩

/-- Error response: status code plus `error` body field. -/
def errorResp (code : Nat) (msg : String) : ApiResponse :=
  { plainResp code with error := some msg }

/-- Result of callGeminiForDetailedATS. -/
structure AtsAnalysis where
  atsScore : Int
  feedback : String
deriving DecidableEq, Repr

/-- Result of callGeminiForJobOptimization. -/
structure OptAnalysis where
  optimizationScore : Int
  keywordAnalysis : String
  suggestions : String
deriving DecidableEq, Repr

/-- prisma resume update of the detailed-ats success path: persist score and
feedback, status detailed_ats_complete, stamp completedAt. -/
def persistAtsResult (a : AtsAnalysis) (r : Resume) : Resume :=
  { r with atsScore := some a.atsScore, feedback := some a.feedback,
           status := "detailed_ats_complete", completedAt := true }

/-- prisma resume update of the job-optimization success path: persist
optimizationScore, keywordAnalysis and suggestions (into feedback), status
job_opt_complete, stamp completedAt. -/
def persistOptResult (a : OptAnalysis) (r : Resume) : Resume :=
  { r with optimizationScore := some a.optimizationScore,
           keywordAnalysis := some a.keywordAnalysis,
           feedback := some a.suggestions,
           status := "job_opt_complete", completedAt := true }

/-- Catch block of POST /:resumeId/detailed-ats-report: roll the PPU ATS
credit back if one was consumed, set the resume status to
detailed_ats_failed (guarded by the JS truthiness of resumeId), answer 500. -/
def detailedAtsCatch (db : DB) (resumeId userId : Int) (usedPpuCredit : Bool) :
    ApiResponse × DB :=
  let dbA := if usedPpuCredit then updateUserRec db userId incAtsCredit else db
  let dbB := if resumeId ≠ 0 then
      updateResumeRec dbA resumeId (setStatus "detailed_ats_failed")
    else dbA
  (errorResp 500 "Failed to generate detailed ATS report", dbB)

/-- Body of POST /:resumeId/detailed-ats-report after the credit gate:
set status detailed_ats_pending, require a fileUrl, run extraction plus
analysis (`analysis` parameter), persist score and feedback on success. -/
def detailedAtsProceed (db : DB) (resumeId userId : Int) (resume : Resume)
    (usedPpuCredit : Bool) (analysis : Option AtsAnalysis) : ApiResponse × DB :=
  let db2 := updateResumeRec db resumeId (setStatus "detailed_ats_pending")
  match resume.fileUrl with
  | none =>
    let db2f := updateResumeRec db2 resumeId (setStatus "detailed_ats_failed")
    detailedAtsCatch db2f resumeId userId usedPpuCredit
  | some _ =>
    match analysis with
    | none => detailedAtsCatch db2 resumeId userId usedPpuCredit
    | some a =>
      let db3 := updateResumeRec db2 resumeId (persistAtsResult a)
      ({ plainResp 200 with
           message := some "Detailed ATS analysis completed.",
           resumeId := some resumeId,
           atsScore := some a.atsScore,
           feedback := some a.feedback }, db3)

/-- POST /:resumeId/detailed-ats-report (src/routes/resumes.js): lookups,
ownership check, premium-or-credit gate, PPU credit decrement, then the
analysis body; errors after the decrement roll the credit back. -/
def detailedAtsReport (db : DB) (resumeId userId : Int) (analysis : Option AtsAnalysis) :
    ApiResponse × DB :=
  match findUser db userId with
  | none => (errorResp 404 "User not found", db)
  | some user =>
    match findResume db resumeId with
    | none => (errorResp 404 "Resume not found", db)
    | some resume =>
      if resume.userId ≠ some userId then
        (errorResp 403 "Forbidden: You do not own this resume", db)
      else if user.subscriptionStatus ≠ "premium" ∧ user.ppuAtsCredits ≤ 0 then
        (errorResp 403 "Forbidden: Premium subscription or Detailed ATS credit required.", db)
      else if user.subscriptionStatus ≠ "premium" then
        let db1 := updateUserRec db userId decAtsCredit
        detailedAtsProceed db1 resumeId userId resume true analysis
      else
        detailedAtsProceed db resumeId userId resume false analysis

/-- Catch block of POST /:resumeId/job-optimization: roll the PPU
optimization credit back if one was consumed (the click budget is not
reset), set status job_opt_failed, answer 500. -/
def jobOptCatch (db : DB) (resumeId userId : Int) (usedPpuCredit : Bool) :
    ApiResponse × DB :=
  let dbA := if usedPpuCredit then updateUserRec db userId incOptCredit else db
  let dbB := if resumeId ≠ 0 then
      updateResumeRec dbA resumeId (setStatus "job_opt_failed")
    else dbA
  (errorResp 500 "Failed to generate job optimization report", dbB)

/-- Body of POST /:resumeId/job-optimization after the credit gate: set
status job_opt_pending, require a fileUrl, run extraction plus analysis,
persist optimizationScore, keywordAnalysis and suggestions on success. -/
def jobOptProceed (db : DB) (resumeId userId : Int) (resume : Resume)
    (usedPpuCredit : Bool) (ppuClicksRemaining : Option Int)
    (analysis : Option OptAnalysis) : ApiResponse × DB :=
  let db2 := updateResumeRec db resumeId (setStatus "job_opt_pending")
  match resume.fileUrl with
  | none =>
    let db2f := updateResumeRec db2 resumeId (setStatus "job_opt_failed")
    jobOptCatch db2f resumeId userId usedPpuCredit
  | some _ =>
    match analysis with
    | none => jobOptCatch db2 resumeId userId usedPpuCredit
    | some a =>
      let db3 := updateResumeRec db2 resumeId (persistOptResult a)
      ({ plainResp 200 with
           message := some "Job-specific optimization analysis completed.",
           resumeId := some resumeId,
           optimizationScore := some a.optimizationScore,
           keywordAnalysis := some a.keywordAnalysis,
           suggestions := some a.suggestions,
           ppuClicksRemaining := ppuClicksRemaining }, db3)

/-- POST /:resumeId/job-optimization (src/routes/resumes.js): lookups,
ownership, stored-job-description precondition, premium-or-credit gate,
then for PPU users a transaction decrementing ppuOptimizationCredits and
setting the resume click budget to PPU_CLICK_LIMIT = 5, then the analysis
body with rollback on failure. -/
def jobOptimization (db : DB) (resumeId userId : Int) (analysis : Option OptAnalysis) :
    ApiResponse × DB :=
  match findUser db userId with
  | none => (errorResp 404 "User not found", db)
  | some user =>
    match findResume db resumeId with
    | none => (errorResp 404 "Resume not found", db)
    | some resume =>
      if resume.userId ≠ some userId then
        (errorResp 403 "Forbidden: You do not own this resume", db)
      else if jsFalsy resume.jobDescription then
        (errorResp 400 "Job description is required. Please add it first.", db)
      else if user.subscriptionStatus ≠ "premium" ∧ user.ppuOptimizationCredits ≤ 0 then
        (errorResp 403 "Forbidden: Premium subscription or Job Optimization credit required.", db)
      else if user.subscriptionStatus ≠ "premium" then
        let db1 := updateResumeRec (updateUserRec db userId decOptCredit) resumeId (setClicks 5)
        jobOptProceed db1 resumeId userId resume true (some 5) analysis
      else
        jobOptProceed db resumeId userId resume false none analysis

/-- Tail of POST /:resumeId/analyze-changes: the analysis call on the edited
text and the response; the result is only returned, never persisted, and a
thrown analysis error reaches the outer catch (500) with no click rollback. -/
def analyzeChangesFinish (db : DB) (resumeId : Int) (newClicksRemaining : Option Int)
    (analysis : Option OptAnalysis) : ApiResponse × DB :=
  match analysis with
  | none => (errorResp 500 "Failed to analyze changes", db)
  | some a =>
    ({ plainResp 200 with
         message := some "Analysis of changes completed.",
         resumeId := some resumeId,
         optimizationScore := some a.optimizationScore,
         keywordAnalysis := some a.keywordAnalysis,
         suggestions := some a.suggestions,
         ppuClicksRemaining := newClicksRemaining }, db)

/-- POST /:resumeId/analyze-changes (src/routes/resumes.js): body text
check, lookups, ownership, job-description precondition, then for
non-premium users the click-budget gate (403 with ppuClicksRemaining 0 when
null or exhausted) and the click decrement before the analysis call. -/
def analyzeChanges (db : DB) (resumeId userId : Int) (editedResumeText : Option String)
    (analysis : Option OptAnalysis) : ApiResponse × DB :=
  match editedResumeText with
  | none => (errorResp 400 "Edited resume text is required.", db)
  | some _ =>
    match findUser db userId with
    | none => (errorResp 404 "User not found", db)
    | some user =>
      match findResume db resumeId with
      | none => (errorResp 404 "Resume not found", db)
      | some resume =>
        if resume.userId ≠ some userId then
          (errorResp 403 "Forbidden: You do not own this resume", db)
        else if jsFalsy resume.jobDescription then
          (errorResp 400 "Cannot analyze changes: No job description associated with this resume for optimization.", db)
        else if user.subscriptionStatus ≠ "premium" then
          match resume.ppuOptimizationClicksRemaining with
          | none =>
            ({ errorResp 403 "Forbidden: No PPU analysis clicks remaining for this optimization session." with
                 ppuClicksRemaining := some 0 }, db)
          | some k =>
            if k ≤ 0 then
              ({ errorResp 403 "Forbidden: No PPU analysis clicks remaining for this optimization session." with
                   ppuClicksRemaining := some 0 }, db)
            else
              let db1 := updateResumeRec db resumeId decClicks
              analyzeChangesFinish db1 resumeId (some (k - 1)) analysis
        else
          analyzeChangesFinish db resumeId none analysis

/-- Parsed metadata of a checkout.session.completed event
(src/routes/payments.js).  `userId`/`resumeId` hold the parseInt result:
`none` models a missing or unparsable value (NaN). -/
structure CheckoutMeta where
  serviceType : Option String
  userId : Option Int
  resumeId : Option Int
deriving DecidableEq, Repr

/-- prisma.user.update where id, as a fallible operation: throws (returns
`none`) when no row matches, which the webhook's outer catch turns into a
400 response with no state change. -/
def updateUserChecked (db : DB) (uid : Int) (f : User → User) : Option DB :=
  match findUser db uid with
  | none => none
  | some _ => some (updateUserRec db uid f)

/-- prisma.$transaction of the review branch: create the ReviewOrder
(userId/resumeId foreign keys, unique resumeId) and set the resume status
to pending_review; any failure aborts the whole transaction with no state
change. -/
def reviewTransaction (db : DB) (uid rid : Int) (paymentIntent : Option String) :
    Option DB :=
  if (findUser db uid).isNone then none
  else if db.reviewOrders.any (fun o => o.resumeId == rid) then none
  else
    match findResume db rid with
    | none => none
    | some _ =>
      let db1 : DB := { db with reviewOrders :=
        db.reviewOrders ++ [⟨uid, rid, "requested", some "success", paymentIntent⟩] }
      some (updateResumeRec db1 rid (setStatus "pending_review"))

/-- Acknowledgement response of the webhook: 200 with body received true. -/
def receivedResp : ApiResponse :=
  { plainResp 200 with message := some "received" }

/-- checkout.session.completed branch of POST /payments/webhook
(src/routes/payments.js): validate metadata and userId, then dispatch on
serviceType: subscription activation, ppu_ats / ppu_optimization credit
grant (unconditional increment), or review-order creation in a
transaction; unknown service types are acknowledged with 200 and no state
change.  A thrown Prisma error reaches the outer catch and answers 400;
a review-transaction failure answers 500. -/
def handleCheckoutSessionCompleted (db : DB) (metadata : Option CheckoutMeta)
    (sessionSubscription : Option String) (sessionPaymentIntent : Option String) :
    ApiResponse × DB :=
  match metadata with
  | none => (errorResp 400 "Webhook error: Missing metadata", db)
  | some m =>
    match m.userId with
    | none => (errorResp 400 "Webhook error: Invalid userId", db)
    | some uid =>
      if uid = 0 then (errorResp 400 "Webhook error: Invalid userId", db)
      else if m.serviceType = some "subscription" then
        match updateUserChecked db uid (activatePremium sessionSubscription) with
        | some db1 => (receivedResp, db1)
        | none => (errorResp 400 "Webhook Error", db)
      else if m.serviceType = some "ppu_ats" then
        match updateUserChecked db uid incAtsCredit with
        | some db1 => (receivedResp, db1)
        | none => (errorResp 400 "Webhook Error", db)
      else if m.serviceType = some "ppu_optimization" then
        match updateUserChecked db uid incOptCredit with
        | some db1 => (receivedResp, db1)
        | none => (errorResp 400 "Webhook Error", db)
      else if m.serviceType = some "review" then
        match m.resumeId with
        | none => (errorResp 400 "Webhook error: Missing resumeId for review", db)
        | some rid =>
          if rid = 0 then (errorResp 400 "Webhook error: Missing resumeId for review", db)
          else
            match reviewTransaction db uid rid sessionPaymentIntent with
            | some db1 => (receivedResp, db1)
            | none =>
              (errorResp 500 "Webhook error: Failed to process review order transaction", db)
      else (receivedResp, db)

/-- Credit-ledger operations on one counter of one user, as the routes
implement them in sequential execution: `consume` is the gate plus
decrement of the paid-analysis handlers, `grant` the webhook's
increment-by-1 credit grant, `rollback` the catch-block increment-by-1. -/
inductive LedgerOp where
  | consume
  | grant
  | rollback
deriving DecidableEq, Repr

/-- One ledger operation on counter value `c` for a user whose premium
status is `premium`; a failing `consume` (counter already at 0, not
premium) leaves the counter unchanged. -/
def ledgerStep (premium : Bool) (c : Int) : LedgerOp → Int
  | .consume => if premium = false ∧ c ≤ 0 then c else if premium = false then c - 1 else c
  | .grant => c + 1
  | .rollback => c + 1

/-- Run a sequence of ledger operations left to right. -/
def ledgerRun (premium : Bool) : Int → List LedgerOp → Int
  | c, [] => c
  | c, op :: ops => ledgerRun premium (ledgerStep premium c op) ops

/-- Thread-local state of one in-flight paid-analysis request's credit
phase: the counter snapshot obtained by findUnique, and the outcome
(`some true` = passed the gate and issued the decrement, `some false` =
answered 403 InsufficientCredit). -/
structure ConsumeThread where
  readVal : Option Int
  outcome : Option Bool
deriving DecidableEq, Repr

/-- Shared credit counter plus two concurrent non-premium consume requests,
as the handler executes them: step 1 reads the counter (findUnique), step 2
branches on the stale snapshot and, if it was positive, issues the
unconditional atomic decrement. -/
structure ConcState where
  credits : Int
  ta : ConsumeThread
  tb : ConsumeThread
deriving DecidableEq, Repr

/-- One atomic step of a consume request against the shared counter,
mirroring the check-then-set structure of the handler: the read and the
decrement are separate storage operations, and the gate consults only the
thread's snapshot. -/
def threadStep (credits : Int) (t : ConsumeThread) : Int × ConsumeThread :=
  match t.readVal, t.outcome with
  | none, _ => (credits, { t with readVal := some credits })
  | some v, none =>
    if v ≤ 0 then (credits, { t with outcome := some false })
    else (credits - 1, { t with outcome := some true })
  | some _, some _ => (credits, t)

/-- Thread identifiers for the two concurrent requests. -/
inductive Tid where
  | a
  | b
deriving DecidableEq, Repr

/-- Scheduler step: run one atomic step of the chosen thread. -/
def concStep (s : ConcState) : Tid → ConcState
  | .a => let p := threadStep s.credits s.ta; { s with credits := p.1, ta := p.2 }
  | .b => let p := threadStep s.credits s.tb; { s with credits := p.1, tb := p.2 }

/-- Run an interleaving (a schedule of thread ids) from a state. -/
def runSchedule : ConcState → List Tid → ConcState
  | s, [] => s
  | s, t :: rest => runSchedule (concStep s t) rest

/-- Initial state: both requests not yet started, counter at `c`. -/
def concInit (c : Int) : ConcState :=
  ⟨c, ⟨none, none⟩, ⟨none, none⟩⟩

/-- Sample non-premium user with both PPU counters at 0. -/
def userC1 : User := ⟨1, "free", none, 0, 0⟩

/-- Sample resume owned by user 1 with a stored job description. -/
def resumeC1 : Resume :=
  ⟨10, some 1, some "blob-url", "uploaded", some "desc", none, none, none, none, none, false⟩

/-- Sample database for the zero-credit gate scenario. -/
def dbC1 : DB := ⟨[userC1], [resumeC1], []⟩

/-- Sample non-premium user with one credit of each PPU kind. -/
def userC6 : User := ⟨1, "free", none, 1, 1⟩

/-- Sample database for the consume-then-rollback scenario. -/
def dbC6 : DB := ⟨[userC6], [resumeC1], []⟩

/-- Sample optimization-analysis result. -/
def optW : OptAnalysis := ⟨80, "kw", "sug"⟩

/-- Sample resume owned by user 1 with a job description and 3 clicks left. -/
def resumeC10 : Resume :=
  ⟨10, some 1, some "blob-url", "job_opt_complete", some "desc", none, none, none, none,
    some 3, false⟩

/-- Sample database for click-consumption scenarios. -/
def dbC10 : DB := ⟨[userC6], [resumeC10], []⟩

/-- Sample resume owned by user 2 (not the caller). -/
def resumeC7b : Resume :=
  ⟨11, some 2, some "blob-url", "uploaded", some "desc", none, none, none, none, none, false⟩

/-- Sample resume owned by user 1 without a stored job description. -/
def resumeC7c : Resume :=
  ⟨12, some 1, some "blob-url", "uploaded", none, none, none, none, none, none, false⟩

/-- Sample database for the job-optimization gate-order scenarios: caller 1
is non-premium with zero credits. -/
def dbC7 : DB := ⟨[userC1], [resumeC1, resumeC7b, resumeC7c], []⟩

/-- Sample resume at basic_ats_complete with a stored ATS score. -/
def resumeC9a : Resume :=
  ⟨20, some 1, some "blob-url", "basic_ats_complete", some "desc", some 70, none, none, none,
    none, false⟩

/-- Sample resume at detailed_ats_failed. -/
def resumeC9b : Resume :=
  ⟨21, some 1, some "blob-url", "detailed_ats_failed", some "desc", none, none, none, none,
    none, false⟩

/-- Sample database for the stage-independence scenarios. -/
def dbC9 : DB := ⟨[userC6], [resumeC9a, resumeC9b], []⟩

/-- Sample ppu_ats checkout-completed metadata for user 1. -/
def metaAtsC4 : CheckoutMeta := ⟨some "ppu_ats", some 1, none⟩

/-- Iterated analyze-changes calls with fixed inputs: the database state
after n consecutive calls. -/
def analyzeChangesIter (rid uid : Int) (txt : String) (a : OptAnalysis) : Nat → DB → DB
  | 0, db => db
  | n + 1, db =>
    analyzeChangesIter rid uid txt a n (analyzeChanges db rid uid (some txt) (some a)).2

/-- Sample resume owned by user 1 with a fresh click budget of 5. -/
def resumeC5 : Resume :=
  ⟨10, some 1, some "blob-url", "job_opt_complete", some "desc", none, none, none, none,
    some 5, false⟩

/-- Sample database for the click-budget depletion scenario. -/
def dbC5 : DB := ⟨[userC6], [resumeC5], []⟩

/-- Finding by an integer key in a list after updating every row with that
key: the found row is the updated one, provided the update preserves keys. -/
theorem find_map_update {α : Type} (key : α → Int) (k : Int) (f : α → α)
    (hf : ∀ y, key (f y) = key y) (l : List α) :
    (l.map (fun y => if key y == k then f y else y)).find? (fun y => key y == k)
      = (l.find? (fun y => key y == k)).map f := by
  induction l with
  | nil => rfl
  | cons x xs ih =>
    by_cases hx : key x = k
    · have h1 : (key x == k) = true := by simp [hx]
      have h2 : (key (f x) == k) = true := by simp [hf, hx]
      simp only [List.map_cons, List.find?_cons, h1, if_true, h2]
      simp [Option.map]
    · have h1 : (key x == k) = false := by simp [hx]
      simp only [List.map_cons, List.find?_cons, h1, if_false, ih]
      simp [h1]

/-- Looking a user up after updating that user yields the updated record. -/
theorem findUser_updateUserRec (db : DB) (uid : Int) (f : User → User)
    (hf : ∀ u, (f u).id = u.id) :
    findUser (updateUserRec db uid f) uid = (findUser db uid).map f := by
  show (db.users.map (fun u => if u.id == uid then f u else u)).find? (fun u => u.id == uid)
      = (db.users.find? (fun u => u.id == uid)).map f
  exact find_map_update (fun u => u.id) uid f hf db.users

/-- Looking a resume up after updating that resume yields the updated record. -/
theorem findResume_updateResumeRec (db : DB) (rid : Int) (f : Resume → Resume)
    (hf : ∀ r, (f r).id = r.id) :
    findResume (updateResumeRec db rid f) rid = (findResume db rid).map f := by
  show (db.resumes.map (fun r => if r.id == rid then f r else r)).find? (fun r => r.id == rid)
      = (db.resumes.find? (fun r => r.id == rid)).map f
  exact find_map_update (fun r => r.id) rid f hf db.resumes

/-- Resume updates do not touch the users table. -/
theorem findUser_updateResumeRec (db : DB) (rid : Int) (f : Resume → Resume) (uid : Int) :
    findUser (updateResumeRec db rid f) uid = findUser db uid := rfl

/-- User updates do not touch the resumes table. -/
theorem findResume_updateUserRec (db : DB) (uid : Int) (f : User → User) (rid : Int) :
    findResume (updateUserRec db uid f) rid = findResume db rid := rfl

/-- A single ledger operation keeps a non-negative counter non-negative. -/
theorem ledgerStep_nonneg (premium : Bool) (c : Int) (op : LedgerOp) (h : 0 ≤ c) :
    0 ≤ ledgerStep premium c op := by
  cases op <;> simp only [ledgerStep]
  · split
    · exact h
    · rename_i hcond
      split
      · rename_i hp
        rcases not_and_or.mp hcond with h1 | h2
        · exact absurd hp h1
        · omega
      · exact h
  · omega
  · omega

/-- Any sequence of ledger operations keeps a non-negative counter
non-negative. -/
theorem ledgerRun_nonneg (premium : Bool) (ops : List LedgerOp) :
    ∀ c : Int, 0 ≤ c → 0 ≤ ledgerRun premium c ops := by
  induction ops with
  | nil => intro c h; exact h
  | cons op ops ih =>
    intro c h
    exact ih _ (ledgerStep_nonneg premium c op h)

/-- Credit gate of detailed-ats-report: a non-premium caller with no
Detailed ATS credits is answered 403 with no state change. -/
theorem detailedAtsReport_noCredit (db : DB) (rid uid : Int) (u : User) (r : Resume)
    (analysis : Option AtsAnalysis)
    (hu : findUser db uid = some u) (hr : findResume db rid = some r)
    (hown : r.userId = some uid) (hprem : u.subscriptionStatus ≠ "premium")
    (hc : u.ppuAtsCredits ≤ 0) :
    detailedAtsReport db rid uid analysis
      = (errorResp 403 "Forbidden: Premium subscription or Detailed ATS credit required.", db) := by
  simp [detailedAtsReport, hu, hr, hown, hprem, hc]

/-- Credit gate of job-optimization: a non-premium caller with no Job
Optimization credits (and a stored job description) is answered 403 with no
state change. -/
theorem jobOptimization_noCredit (db : DB) (rid uid : Int) (u : User) (r : Resume)
    (analysis : Option OptAnalysis)
    (hu : findUser db uid = some u) (hr : findResume db rid = some r)
    (hown : r.userId = some uid) (hjd : jsFalsy r.jobDescription = false)
    (hprem : u.subscriptionStatus ≠ "premium")
    (hc : u.ppuOptimizationCredits ≤ 0) :
    jobOptimization db rid uid analysis
      = (errorResp 403 "Forbidden: Premium subscription or Job Optimization credit required.", db) := by
  simp [jobOptimization, hu, hr, hown, hjd, hprem, hc]

/-- C1: for every non-premium user whose relevant credit counter
(ppuAtsCredits for detailed ATS, ppuOptimizationCredits for job
optimization) is exactly 0, the paid-analysis request is answered 403
Forbidden (insufficient credit) with no state mutation, and every sequence
of consume/grant/rollback ledger operations keeps a counter that starts
non-negative non-negative. -/
theorem C1_zero_credit_gate_and_counter_nonneg :
    (∀ (db : DB) (rid uid : Int) (u : User) (r : Resume) (analysis : Option AtsAnalysis),
        findUser db uid = some u → findResume db rid = some r →
        r.userId = some uid → u.subscriptionStatus ≠ "premium" →
        u.ppuAtsCredits = 0 →
        detailedAtsReport db rid uid analysis
          = (errorResp 403 "Forbidden: Premium subscription or Detailed ATS credit required.", db))
    ∧ (∀ (db : DB) (rid uid : Int) (u : User) (r : Resume) (analysis : Option OptAnalysis),
        findUser db uid = some u → findResume db rid = some r →
        r.userId = some uid → jsFalsy r.jobDescription = false →
        u.subscriptionStatus ≠ "premium" →
        u.ppuOptimizationCredits = 0 →
        jobOptimization db rid uid analysis
          = (errorResp 403 "Forbidden: Premium subscription or Job Optimization credit required.", db))
    ∧ (∀ (premium : Bool) (c : Int) (ops : List LedgerOp),
        0 ≤ c → 0 ≤ ledgerRun premium c ops) := by
  refine ⟨?_, ?_, ?_⟩
  · intro db rid uid u r analysis hu hr hown hprem hc
    exact detailedAtsReport_noCredit db rid uid u r analysis hu hr hown hprem (le_of_eq hc)
  · intro db rid uid u r analysis hu hr hown hjd hprem hc
    exact jobOptimization_noCredit db rid uid u r analysis hu hr hown hjd hprem (le_of_eq hc)
  · intro premium c ops hc
    exact ledgerRun_nonneg premium ops c hc

/-- C1 witness: the zero-credit gate and ledger non-negativity at a
concrete database and operation sequence. -/
theorem C1_zero_credit_gate_and_counter_nonneg_witness :
    detailedAtsReport dbC1 10 1 none
        = (errorResp 403 "Forbidden: Premium subscription or Detailed ATS credit required.", dbC1)
    ∧ jobOptimization dbC1 10 1 none
        = (errorResp 403 "Forbidden: Premium subscription or Job Optimization credit required.", dbC1)
    ∧ 0 ≤ ledgerRun false 0
        [LedgerOp.consume, LedgerOp.grant, LedgerOp.consume, LedgerOp.rollback] := by
  obtain ⟨h1, h2, h3⟩ := C1_zero_credit_gate_and_counter_nonneg
  refine ⟨?_, ?_, ?_⟩
  · exact h1 dbC1 10 1 userC1 resumeC1 none (by decide) (by decide) (by decide)
      (by decide) (by decide)
  · exact h2 dbC1 10 1 userC1 resumeC1 none (by decide) (by decide) (by decide)
      (by decide) (by decide) (by decide)
  · exact h3 false 0 _ (by decide)

/-- Evaluation of a successful analyze-changes call by a non-premium user
with a positive click budget: 200 with the decremented count reported, and
the only state change is the click decrement on that resume. -/
theorem analyzeChanges_ppu_success (db : DB) (rid uid : Int) (u : User) (r : Resume)
    (k : Int) (txt : String) (a : OptAnalysis)
    (hu : findUser db uid = some u) (hr : findResume db rid = some r)
    (hown : r.userId = some uid) (hjd : jsFalsy r.jobDescription = false)
    (hprem : u.subscriptionStatus ≠ "premium")
    (hk : r.ppuOptimizationClicksRemaining = some k) (hkpos : 0 < k) :
    analyzeChanges db rid uid (some txt) (some a)
      = ({ plainResp 200 with
             message := some "Analysis of changes completed.",
             resumeId := some rid,
             optimizationScore := some a.optimizationScore,
             keywordAnalysis := some a.keywordAnalysis,
             suggestions := some a.suggestions,
             ppuClicksRemaining := some (k - 1) },
         updateResumeRec db rid decClicks) := by
  simp [analyzeChanges, analyzeChangesFinish, hu, hr, hown, hjd, hprem, hk, not_le.mpr hkpos]

/-- Evaluation of a failing analyze-changes call (analysis error after the
click decrement) by a non-premium user: 500, and the click decrement is
kept — there is no rollback on this path. -/
theorem analyzeChanges_ppu_failure (db : DB) (rid uid : Int) (u : User) (r : Resume)
    (k : Int) (txt : String)
    (hu : findUser db uid = some u) (hr : findResume db rid = some r)
    (hown : r.userId = some uid) (hjd : jsFalsy r.jobDescription = false)
    (hprem : u.subscriptionStatus ≠ "premium")
    (hk : r.ppuOptimizationClicksRemaining = some k) (hkpos : 0 < k) :
    analyzeChanges db rid uid (some txt) none
      = (errorResp 500 "Failed to analyze changes",
         updateResumeRec db rid decClicks) := by
  simp [analyzeChanges, analyzeChangesFinish, hu, hr, hown, hjd, hprem, hk, not_le.mpr hkpos]

/-- Evaluation of an analyze-changes call by a non-premium user whose click
budget is exhausted (0): 403 reporting ppuClicksRemaining 0, no state
change. -/
theorem analyzeChanges_ppu_exhausted (db : DB) (rid uid : Int) (u : User) (r : Resume)
    (txt : String) (analysis : Option OptAnalysis)
    (hu : findUser db uid = some u) (hr : findResume db rid = some r)
    (hown : r.userId = some uid) (hjd : jsFalsy r.jobDescription = false)
    (hprem : u.subscriptionStatus ≠ "premium")
    (hk : r.ppuOptimizationClicksRemaining = some 0) :
    analyzeChanges db rid uid (some txt) analysis
      = ({ errorResp 403 "Forbidden: No PPU analysis clicks remaining for this optimization session." with
             ppuClicksRemaining := some 0 }, db) := by
  simp [analyzeChanges, hu, hr, hown, hjd, hprem, hk]

/-- Evaluation of a successful analyze-changes call by a premium user: the
click budget is ignored and nothing at all is written. -/
theorem analyzeChanges_premium_success (db : DB) (rid uid : Int) (u : User) (r : Resume)
    (txt : String) (a : OptAnalysis)
    (hu : findUser db uid = some u) (hr : findResume db rid = some r)
    (hown : r.userId = some uid) (hjd : jsFalsy r.jobDescription = false)
    (hprem : u.subscriptionStatus = "premium") :
    analyzeChanges db rid uid (some txt) (some a)
      = ({ plainResp 200 with
             message := some "Analysis of changes completed.",
             resumeId := some rid,
             optimizationScore := some a.optimizationScore,
             keywordAnalysis := some a.keywordAnalysis,
             suggestions := some a.suggestions,
             ppuClicksRemaining := none }, db) := by
  simp [analyzeChanges, analyzeChangesFinish, hu, hr, hown, hjd, hprem]

/-- Evaluation of a successful job-optimization call by a non-premium user
with a positive credit counter: the credit is consumed, the click budget is
set to 5, and the optimization result fields and job_opt_complete status
are persisted. -/
theorem jobOptimization_ppu_success (db : DB) (rid uid : Int) (u : User) (r : Resume)
    (url : String) (a : OptAnalysis)
    (hu : findUser db uid = some u) (hr : findResume db rid = some r)
    (hown : r.userId = some uid) (hjd : jsFalsy r.jobDescription = false)
    (hprem : u.subscriptionStatus ≠ "premium") (hc : 0 < u.ppuOptimizationCredits)
    (hfile : r.fileUrl = some url) :
    jobOptimization db rid uid (some a)
      = ({ plainResp 200 with
             message := some "Job-specific optimization analysis completed.",
             resumeId := some rid,
             optimizationScore := some a.optimizationScore,
             keywordAnalysis := some a.keywordAnalysis,
             suggestions := some a.suggestions,
             ppuClicksRemaining := some 5 },
         updateResumeRec
           (updateResumeRec
             (updateResumeRec (updateUserRec db uid decOptCredit) rid (setClicks 5))
             rid (setStatus "job_opt_pending"))
           rid (persistOptResult a)) := by
  simp [jobOptimization, jobOptProceed, hu, hr, hown, hjd, hprem, not_le.mpr hc, hfile]

/-- Evaluation of a successful job-optimization call by a premium user: no
credit or click-budget mutation, result fields and status persisted. -/
theorem jobOptimization_premium_success (db : DB) (rid uid : Int) (u : User) (r : Resume)
    (url : String) (a : OptAnalysis)
    (hu : findUser db uid = some u) (hr : findResume db rid = some r)
    (hown : r.userId = some uid) (hjd : jsFalsy r.jobDescription = false)
    (hprem : u.subscriptionStatus = "premium")
    (hfile : r.fileUrl = some url) :
    jobOptimization db rid uid (some a)
      = ({ plainResp 200 with
             message := some "Job-specific optimization analysis completed.",
             resumeId := some rid,
             optimizationScore := some a.optimizationScore,
             keywordAnalysis := some a.keywordAnalysis,
             suggestions := some a.suggestions,
             ppuClicksRemaining := none },
         updateResumeRec
           (updateResumeRec db rid (setStatus "job_opt_pending"))
           rid (persistOptResult a)) := by
  simp [jobOptimization, jobOptProceed, hu, hr, hown, hjd, hprem, hfile]

/-- Evaluation of a failing detailed-ats-report call (analysis error after
the credit decrement) by a non-premium user with a positive counter: the
consumed credit is rolled back in the catch block, status is set to
detailed_ats_failed, and the response is 500. -/
theorem detailedAtsReport_ppu_failure (db : DB) (rid uid : Int) (u : User) (r : Resume)
    (url : String)
    (hu : findUser db uid = some u) (hr : findResume db rid = some r)
    (hown : r.userId = some uid)
    (hprem : u.subscriptionStatus ≠ "premium") (hc : 0 < u.ppuAtsCredits)
    (hfile : r.fileUrl = some url) (hrid : rid ≠ 0) :
    detailedAtsReport db rid uid none
      = (errorResp 500 "Failed to generate detailed ATS report",
         updateResumeRec
           (updateUserRec
             (updateResumeRec (updateUserRec db uid decAtsCredit)
               rid (setStatus "detailed_ats_pending"))
             uid incAtsCredit)
           rid (setStatus "detailed_ats_failed")) := by
  simp [detailedAtsReport, detailedAtsProceed, detailedAtsCatch, hu, hr, hown, hprem,
    not_le.mpr hc, hfile, hrid]

/-- C2: the handler's credit phase is an application-level check-then-set,
not an atomic conditional update: from a counter at 1, the serial schedule
lets exactly one of two consume requests succeed, but the interleaving that
runs both findUnique reads before either decrement lets both requests pass
the gate and both decrement, driving the counter to -1 — both succeed,
refuting the claim that exactly one succeeds. -/
theorem C2_check_then_set_race :
    (runSchedule (concInit 1) [Tid.a, Tid.a, Tid.b, Tid.b]).ta.outcome = some true
    ∧ (runSchedule (concInit 1) [Tid.a, Tid.a, Tid.b, Tid.b]).tb.outcome = some false
    ∧ (runSchedule (concInit 1) [Tid.a, Tid.a, Tid.b, Tid.b]).credits = 0
    ∧ (runSchedule (concInit 1) [Tid.a, Tid.b, Tid.a, Tid.b]).ta.outcome = some true
    ∧ (runSchedule (concInit 1) [Tid.a, Tid.b, Tid.a, Tid.b]).tb.outcome = some true
    ∧ (runSchedule (concInit 1) [Tid.a, Tid.b, Tid.a, Tid.b]).credits = -1 := by
  decide

/-- C6: for every non-premium user with a positive ppuAtsCredits counter, a
detailed-ats-report call whose downstream analysis fails — a consume (the
credit decrement) immediately followed by the failure-path rollback (the
catch-block increment) — answers 500 and leaves the credit counter equal to
its value before the call. -/
theorem C6_consume_rollback_symmetry (db : DB) (rid uid : Int) (u : User) (r : Resume)
    (url : String)
    (hu : findUser db uid = some u) (hr : findResume db rid = some r)
    (hown : r.userId = some uid)
    (hprem : u.subscriptionStatus ≠ "premium") (hc : 0 < u.ppuAtsCredits)
    (hfile : r.fileUrl = some url) (hrid : rid ≠ 0) :
    (detailedAtsReport db rid uid none).1.status = 500
    ∧ (findUser (detailedAtsReport db rid uid none).2 uid).map User.ppuAtsCredits
        = some u.ppuAtsCredits := by
  rw [detailedAtsReport_ppu_failure db rid uid u r url hu hr hown hprem hc hfile hrid]
  refine ⟨rfl, ?_⟩
  rw [findUser_updateResumeRec, findUser_updateUserRec _ _ incAtsCredit (fun _ => rfl),
      findUser_updateResumeRec, findUser_updateUserRec _ _ decAtsCredit (fun _ => rfl), hu]
  simp [incAtsCredit, decAtsCredit]

/-- C6 witness: consume followed by the failure-path rollback at a concrete
database with one credit. -/
theorem C6_consume_rollback_symmetry_witness :
    (detailedAtsReport dbC6 10 1 none).1.status = 500
    ∧ (findUser (detailedAtsReport dbC6 10 1 none).2 1).map User.ppuAtsCredits
        = some 1 := by
  exact C6_consume_rollback_symmetry dbC6 10 1 userC6 resumeC1 "blob-url"
    (by decide) (by decide) (by decide) (by decide) (by decide) (by decide) (by decide)

/-- C10: for a non-premium user, analyze-changes decrements the click
budget before invoking the analysis capability; when the analysis then
fails, the request answers 500 and the decrement is not rolled back — the
click stays consumed, unlike the credit rollback of the other paid
operations. -/
theorem C10_click_kept_on_failure (db : DB) (rid uid : Int) (u : User) (r : Resume)
    (k : Int) (txt : String)
    (hu : findUser db uid = some u) (hr : findResume db rid = some r)
    (hown : r.userId = some uid) (hjd : jsFalsy r.jobDescription = false)
    (hprem : u.subscriptionStatus ≠ "premium")
    (hk : r.ppuOptimizationClicksRemaining = some k) (hkpos : 0 < k) :
    analyzeChanges db rid uid (some txt) none
      = (errorResp 500 "Failed to analyze changes", updateResumeRec db rid decClicks)
    ∧ (findResume (analyzeChanges db rid uid (some txt) none).2 rid).map
        Resume.ppuOptimizationClicksRemaining = some (some (k - 1)) := by
  have h := analyzeChanges_ppu_failure db rid uid u r k txt hu hr hown hjd hprem hk hkpos
  refine ⟨h, ?_⟩
  rw [h]
  rw [findResume_updateResumeRec _ _ decClicks (fun _ => rfl), hr]
  simp [decClicks, hk]

/-- C10 witness: a failing analysis call at a concrete database with 3
clicks left keeps the decrement. -/
theorem C10_click_kept_on_failure_witness :
    analyzeChanges dbC10 10 1 (some "text") none
      = (errorResp 500 "Failed to analyze changes", updateResumeRec dbC10 10 decClicks)
    ∧ (findResume (analyzeChanges dbC10 10 1 (some "text") none).2 10).map
        Resume.ppuOptimizationClicksRemaining = some (some 2) := by
  exact C10_click_kept_on_failure dbC10 10 1 userC6 resumeC10 3 "text"
    (by decide) (by decide) (by decide) (by decide) (by decide) (by decide) (by decide)

/-- C8: a successful analyze-changes call leaves the resume's persisted
score fields (atsScore, optimizationScore, keywordAnalysis, feedback) and
its status unchanged; for a non-premium user the whole state change is the
click decrement on that resume (users and review orders untouched), for a
premium user the state is unchanged entirely, and the analysis result
appears only in the response body. -/
theorem C8_analyze_changes_frame (db : DB) (rid uid : Int) (u : User) (r : Resume)
    (txt : String) (a : OptAnalysis)
    (hu : findUser db uid = some u) (hr : findResume db rid = some r)
    (hown : r.userId = some uid) (hjd : jsFalsy r.jobDescription = false) :
    (∀ k : Int, u.subscriptionStatus ≠ "premium" →
      r.ppuOptimizationClicksRemaining = some k → 0 < k →
      (analyzeChanges db rid uid (some txt) (some a)).2 = updateResumeRec db rid decClicks
      ∧ (analyzeChanges db rid uid (some txt) (some a)).2.users = db.users
      ∧ (analyzeChanges db rid uid (some txt) (some a)).2.reviewOrders = db.reviewOrders
      ∧ findResume (analyzeChanges db rid uid (some txt) (some a)).2 rid
          = some { r with ppuOptimizationClicksRemaining := some (k - 1) }
      ∧ (analyzeChanges db rid uid (some txt) (some a)).1
          = { plainResp 200 with
                message := some "Analysis of changes completed.",
                resumeId := some rid,
                optimizationScore := some a.optimizationScore,
                keywordAnalysis := some a.keywordAnalysis,
                suggestions := some a.suggestions,
                ppuClicksRemaining := some (k - 1) })
    ∧ (u.subscriptionStatus = "premium" →
      (analyzeChanges db rid uid (some txt) (some a)).2 = db) := by
  constructor
  · intro k hprem hk hkpos
    have h := analyzeChanges_ppu_success db rid uid u r k txt a hu hr hown hjd hprem hk hkpos
    rw [h]
    refine ⟨rfl, rfl, rfl, ?_, rfl⟩
    rw [findResume_updateResumeRec _ _ decClicks (fun _ => rfl), hr]
    simp [decClicks, hk]
  · intro hprem
    rw [analyzeChanges_premium_success db rid uid u r txt a hu hr hown hjd hprem]

/-- C8 witness: successful analyze-changes at a concrete database mutates
only the click budget. -/
theorem C8_analyze_changes_frame_witness :
    (analyzeChanges dbC10 10 1 (some "text") (some optW)).2
        = updateResumeRec dbC10 10 decClicks
    ∧ findResume (analyzeChanges dbC10 10 1 (some "text") (some optW)).2 10
        = some { resumeC10 with ppuOptimizationClicksRemaining := some 2 } := by
  have h := (C8_analyze_changes_frame dbC10 10 1 userC6 resumeC10 "text" optW
    (by decide) (by decide) (by decide) (by decide)).1 3 (by decide) (by decide) (by decide)
  exact ⟨h.1, h.2.2.2.1⟩

/-- C7: job-optimization checks its preconditions in order — resume exists
(else 404 NotFound), caller owns the resume (else 403 Forbidden), a
non-empty job description is already stored (else 400 BadRequest, with no
entitlement hypothesis needed: the 400 wins even when the caller also lacks
entitlement), entitlement (else 403 Forbidden) — and none of these failing
checks mutates any state. -/
theorem C7_job_optimization_gate_order (db : DB) (rid uid : Int) (u : User)
    (analysis : Option OptAnalysis) (hu : findUser db uid = some u) :
    (findResume db rid = none →
      jobOptimization db rid uid analysis = (errorResp 404 "Resume not found", db))
    ∧ (∀ r : Resume, findResume db rid = some r → r.userId ≠ some uid →
      jobOptimization db rid uid analysis
        = (errorResp 403 "Forbidden: You do not own this resume", db))
    ∧ (∀ r : Resume, findResume db rid = some r → r.userId = some uid →
      jsFalsy r.jobDescription = true →
      jobOptimization db rid uid analysis
        = (errorResp 400 "Job description is required. Please add it first.", db))
    ∧ (∀ r : Resume, findResume db rid = some r → r.userId = some uid →
      jsFalsy r.jobDescription = false →
      u.subscriptionStatus ≠ "premium" → u.ppuOptimizationCredits ≤ 0 →
      jobOptimization db rid uid analysis
        = (errorResp 403 "Forbidden: Premium subscription or Job Optimization credit required.", db)) := by
  refine ⟨?_, ?_, ?_, ?_⟩
  · intro hr
    simp [jobOptimization, hu, hr]
  · intro r hr hown
    simp [jobOptimization, hu, hr, hown]
  · intro r hr hown hjd
    simp [jobOptimization, hu, hr, hown, hjd]
  · intro r hr hown hjd hprem hc
    exact jobOptimization_noCredit db rid uid u r analysis hu hr hown hjd hprem hc

/-- C7 witness: the four ordered failure responses at a concrete database;
the missing-job-description 400 fires for a caller who also has zero
credits. -/
theorem C7_job_optimization_gate_order_witness :
    jobOptimization dbC7 99 1 none = (errorResp 404 "Resume not found", dbC7)
    ∧ jobOptimization dbC7 11 1 none
        = (errorResp 403 "Forbidden: You do not own this resume", dbC7)
    ∧ jobOptimization dbC7 12 1 none
        = (errorResp 400 "Job description is required. Please add it first.", dbC7)
    ∧ jobOptimization dbC7 10 1 none
        = (errorResp 403 "Forbidden: Premium subscription or Job Optimization credit required.", dbC7) := by
  obtain ⟨h1, h2, h3, h4⟩ := C7_job_optimization_gate_order dbC7 99 1 userC1 none (by decide)
  obtain ⟨g1, g2, g3, g4⟩ := C7_job_optimization_gate_order dbC7 11 1 userC1 none (by decide)
  obtain ⟨f1, f2, f3, f4⟩ := C7_job_optimization_gate_order dbC7 12 1 userC1 none (by decide)
  obtain ⟨e1, e2, e3, e4⟩ := C7_job_optimization_gate_order dbC7 10 1 userC1 none (by decide)
  exact ⟨h1 (by decide), g2 resumeC7b (by decide) (by decide),
    f3 resumeC7c (by decide) (by decide) (by decide),
    e4 resumeC1 (by decide) (by decide) (by decide) (by decide) (by decide)⟩

/-- A successful job-optimization call, premium or credit-entitled: 200,
and the stored resume afterwards is the original with the optimization
fields, job_opt_complete status and completedAt written, the click budget
possibly rewritten, and everything else — atsScore included — unchanged. -/
theorem jobOptimization_success_resume (db : DB) (rid uid : Int) (u : User) (r : Resume)
    (url : String) (a : OptAnalysis)
    (hu : findUser db uid = some u) (hr : findResume db rid = some r)
    (hown : r.userId = some uid) (hjd : jsFalsy r.jobDescription = false)
    (hent : u.subscriptionStatus = "premium" ∨ 0 < u.ppuOptimizationCredits)
    (hfile : r.fileUrl = some url) :
    (jobOptimization db rid uid (some a)).1.status = 200
    ∧ ∃ cl : Option Int, findResume (jobOptimization db rid uid (some a)).2 rid
        = some { r with optimizationScore := some a.optimizationScore,
                        keywordAnalysis := some a.keywordAnalysis,
                        feedback := some a.suggestions,
                        status := "job_opt_complete", completedAt := true,
                        ppuOptimizationClicksRemaining := cl } := by
  by_cases hp : u.subscriptionStatus = "premium"
  · rw [jobOptimization_premium_success db rid uid u r url a hu hr hown hjd hp hfile]
    refine ⟨rfl, r.ppuOptimizationClicksRemaining, ?_⟩
    rw [findResume_updateResumeRec _ _ (persistOptResult a) (fun _ => rfl),
        findResume_updateResumeRec _ _ (setStatus "job_opt_pending") (fun _ => rfl), hr]
    simp [persistOptResult, setStatus]
  · have hc : 0 < u.ppuOptimizationCredits := hent.resolve_left hp
    rw [jobOptimization_ppu_success db rid uid u r url a hu hr hown hjd hp hc hfile]
    refine ⟨rfl, some 5, ?_⟩
    rw [findResume_updateResumeRec _ _ (persistOptResult a) (fun _ => rfl),
        findResume_updateResumeRec _ _ (setStatus "job_opt_pending") (fun _ => rfl),
        findResume_updateResumeRec _ _ (setClicks 5) (fun _ => rfl),
        findResume_updateUserRec, hr]
    simp [persistOptResult, setStatus, setClicks]

/-- C9: a successful job-optimization call on a resume that reached
basic_ats_complete with a stored atsScore sets optimizationScore,
keywordAnalysis and status job_opt_complete while leaving atsScore exactly
as stored; and a _failed status from another stage does not block the
attempt: the same call from detailed_ats_failed also answers 200 and
completes the stage (the handler never inspects the prior status). -/
theorem C9_stage_independence :
    (∀ (db : DB) (rid uid : Int) (u : User) (r : Resume) (url : String) (a : OptAnalysis)
        (s : Int),
      findUser db uid = some u → findResume db rid = some r →
      r.userId = some uid → jsFalsy r.jobDescription = false →
      (u.subscriptionStatus = "premium" ∨ 0 < u.ppuOptimizationCredits) →
      r.fileUrl = some url →
      r.status = "basic_ats_complete" → r.atsScore = some s →
      (jobOptimization db rid uid (some a)).1.status = 200
      ∧ (findResume (jobOptimization db rid uid (some a)).2 rid).map Resume.atsScore
          = some (some s)
      ∧ (findResume (jobOptimization db rid uid (some a)).2 rid).map Resume.status
          = some "job_opt_complete"
      ∧ (findResume (jobOptimization db rid uid (some a)).2 rid).map Resume.optimizationScore
          = some (some a.optimizationScore)
      ∧ (findResume (jobOptimization db rid uid (some a)).2 rid).map Resume.keywordAnalysis
          = some (some a.keywordAnalysis))
    ∧ (∀ (db : DB) (rid uid : Int) (u : User) (r : Resume) (url : String) (a : OptAnalysis),
      findUser db uid = some u → findResume db rid = some r →
      r.userId = some uid → jsFalsy r.jobDescription = false →
      (u.subscriptionStatus = "premium" ∨ 0 < u.ppuOptimizationCredits) →
      r.fileUrl = some url →
      r.status = "detailed_ats_failed" →
      (jobOptimization db rid uid (some a)).1.status = 200
      ∧ (findResume (jobOptimization db rid uid (some a)).2 rid).map Resume.status
          = some "job_opt_complete") := by
  constructor
  · intro db rid uid u r url a s hu hr hown hjd hent hfile _ hscore
    obtain ⟨h200, cl, hres⟩ :=
      jobOptimization_success_resume db rid uid u r url a hu hr hown hjd hent hfile
    rw [hres]
    exact ⟨h200, by simp [hscore], rfl, rfl, rfl⟩
  · intro db rid uid u r url a hu hr hown hjd hent hfile _
    obtain ⟨h200, cl, hres⟩ :=
      jobOptimization_success_resume db rid uid u r url a hu hr hown hjd hent hfile
    rw [hres]
    exact ⟨h200, rfl⟩

/-- C9 witness: job optimization succeeds from basic_ats_complete keeping
atsScore 70, and also succeeds from detailed_ats_failed. -/
theorem C9_stage_independence_witness :
    (jobOptimization dbC9 20 1 (some optW)).1.status = 200
    ∧ (findResume (jobOptimization dbC9 20 1 (some optW)).2 20).map Resume.atsScore
        = some (some 70)
    ∧ (jobOptimization dbC9 21 1 (some optW)).1.status = 200
    ∧ (findResume (jobOptimization dbC9 21 1 (some optW)).2 21).map Resume.status
        = some "job_opt_complete" := by
  obtain ⟨ha, hb⟩ := C9_stage_independence
  have h1 := ha dbC9 20 1 userC6 resumeC9a "blob-url" optW 70 (by decide) (by decide)
    (by decide) (by decide) (Or.inr (by decide)) (by decide) (by decide) (by decide)
  have h2 := hb dbC9 21 1 userC6 resumeC9b "blob-url" optW (by decide) (by decide)
    (by decide) (by decide) (Or.inr (by decide)) (by decide) (by decide)
  exact ⟨h1.1, h1.2.1, h2.1, h2.2⟩

/-- Evaluation of the review branch of the webhook on a valid event with no
pre-existing order for the resume: the transaction appends the ReviewOrder
and rewrites the resume status. -/
theorem handleCheckout_review_success (db : DB) (uid rid : Int) (u : User) (r : Resume)
    (ss pi : Option String)
    (hu : findUser db uid = some u) (hr : findResume db rid = some r)
    (hu0 : uid ≠ 0) (hr0 : rid ≠ 0)
    (hord : db.reviewOrders.any (fun o => o.resumeId == rid) = false) :
    handleCheckoutSessionCompleted db (some ⟨some "review", some uid, some rid⟩) ss pi
      = (receivedResp,
         updateResumeRec
           { db with reviewOrders :=
               db.reviewOrders ++ [⟨uid, rid, "requested", some "success", pi⟩] }
           rid (setStatus "pending_review")) := by
  simp [handleCheckoutSessionCompleted, reviewTransaction, hu, hr, hu0, hr0, hord]

/-- Evaluation of the review branch of the webhook when the referenced
resume does not exist: the transaction aborts, 500, no state change. -/
theorem handleCheckout_review_aborted (db : DB) (uid rid : Int) (u : User)
    (ss pi : Option String)
    (hu : findUser db uid = some u) (hr : findResume db rid = none)
    (hu0 : uid ≠ 0) (hr0 : rid ≠ 0) :
    handleCheckoutSessionCompleted db (some ⟨some "review", some uid, some rid⟩) ss pi
      = (errorResp 500 "Webhook error: Failed to process review order transaction", db) := by
  have htx : reviewTransaction db uid rid pi = none := by
    simp [reviewTransaction, hu, hr]
  simp [handleCheckoutSessionCompleted, htx, hu0, hr0]

/-- C3: a checkout-completed webhook with serviceType review and valid
userId/resumeId metadata creates exactly one ReviewOrder with status
requested and sets the referenced resume's status to pending_review; and
the two writes are atomic: when the transaction cannot perform the resume
write (the referenced resume is absent) the webhook answers 500 with the
state entirely unchanged — neither write happens. -/
theorem C3_review_webhook_atomic :
    (∀ (db : DB) (uid rid : Int) (u : User) (r : Resume) (ss pi : Option String),
      findUser db uid = some u → findResume db rid = some r →
      uid ≠ 0 → rid ≠ 0 →
      (∀ o ∈ db.reviewOrders, o.resumeId ≠ rid) →
      (handleCheckoutSessionCompleted db (some ⟨some "review", some uid, some rid⟩) ss pi).1
          = receivedResp
      ∧ ((handleCheckoutSessionCompleted db
            (some ⟨some "review", some uid, some rid⟩) ss pi).2.reviewOrders.filter
            (fun o => o.resumeId == rid))
          = [⟨uid, rid, "requested", some "success", pi⟩]
      ∧ findResume (handleCheckoutSessionCompleted db
            (some ⟨some "review", some uid, some rid⟩) ss pi).2 rid
          = some { r with status := "pending_review" })
    ∧ (∀ (db : DB) (uid rid : Int) (u : User) (ss pi : Option String),
      findUser db uid = some u → findResume db rid = none →
      uid ≠ 0 → rid ≠ 0 →
      handleCheckoutSessionCompleted db (some ⟨some "review", some uid, some rid⟩) ss pi
        = (errorResp 500 "Webhook error: Failed to process review order transaction", db)) := by
  constructor
  · intro db uid rid u r ss pi hu hr hu0 hr0 hnone
    have hord : db.reviewOrders.any (fun o => o.resumeId == rid) = false := by
      rw [List.any_eq_false]
      intro o ho
      simpa using hnone o ho
    rw [handleCheckout_review_success db uid rid u r ss pi hu hr hu0 hr0 hord]
    refine ⟨rfl, ?_, ?_⟩
    · show ((db.reviewOrders ++ [(⟨uid, rid, "requested", some "success", pi⟩ : ReviewOrder)]).filter
        (fun o : ReviewOrder => o.resumeId == rid)) = _
      rw [List.filter_append]
      have h1 : db.reviewOrders.filter (fun o => o.resumeId == rid) = [] := by
        rw [List.filter_eq_nil_iff]
        intro o ho
        simpa using hnone o ho
      rw [h1]
      simp
    · rw [findResume_updateResumeRec _ _ (setStatus "pending_review") (fun _ => rfl)]
      show (findResume db rid).map _ = _
      rw [hr]
      simp [setStatus]
  · intro db uid rid u ss pi hu hr hu0 hr0
    exact handleCheckout_review_aborted db uid rid u ss pi hu hr hu0 hr0

/-- C3 witness: at a concrete database the review webhook creates exactly
one requested order and flips the resume to pending_review, and with an
absent resume the transaction aborts wholesale with 500. -/
theorem C3_review_webhook_atomic_witness :
    (handleCheckoutSessionCompleted dbC1
        (some ⟨some "review", some 1, some 10⟩) none (some "pid")).1 = receivedResp
    ∧ ((handleCheckoutSessionCompleted dbC1
          (some ⟨some "review", some 1, some 10⟩) none (some "pid")).2.reviewOrders.filter
          (fun o => o.resumeId == 10))
        = [⟨1, 10, "requested", some "success", some "pid"⟩]
    ∧ findResume (handleCheckoutSessionCompleted dbC1
          (some ⟨some "review", some 1, some 10⟩) none (some "pid")).2 10
        = some { resumeC1 with status := "pending_review" }
    ∧ handleCheckoutSessionCompleted dbC1
          (some ⟨some "review", some 1, some 99⟩) none (some "pid")
        = (errorResp 500 "Webhook error: Failed to process review order transaction", dbC1) := by
  obtain ⟨h1, h2⟩ := C3_review_webhook_atomic
  have ha := h1 dbC1 1 10 userC1 resumeC1 none (some "pid") (by decide) (by decide)
    (by decide) (by decide) (by intro o ho; cases ho)
  have hb := h2 dbC1 1 99 userC1 none (some "pid") (by decide) (by decide)
    (by decide) (by decide)
  exact ⟨ha.1, ha.2.1, ha.2.2, hb⟩

/-- Evaluation of the ppu_ats grant branch of the webhook: unconditional
increment of ppuAtsCredits, no deduplication of any kind. -/
theorem handleCheckout_ppu_ats_grant (db : DB) (uid : Int) (u : User) (ss pi : Option String)
    (hu : findUser db uid = some u) (h0 : uid ≠ 0) :
    handleCheckoutSessionCompleted db (some ⟨some "ppu_ats", some uid, none⟩) ss pi
      = (receivedResp, updateUserRec db uid incAtsCredit) := by
  simp [handleCheckoutSessionCompleted, updateUserChecked, hu, h0]

/-- Evaluation of the ppu_optimization grant branch of the webhook:
unconditional increment of ppuOptimizationCredits. -/
theorem handleCheckout_ppu_opt_grant (db : DB) (uid : Int) (u : User) (ss pi : Option String)
    (hu : findUser db uid = some u) (h0 : uid ≠ 0) :
    handleCheckoutSessionCompleted db (some ⟨some "ppu_optimization", some uid, none⟩) ss pi
      = (receivedResp, updateUserRec db uid incOptCredit) := by
  simp [handleCheckoutSessionCompleted, updateUserChecked, hu, h0]

/-- C4 counterexample: delivering the same ppu_ats checkout-completed event
twice at a concrete database double-grants — the counter is 1 after the
first delivery and 2 after the replay, so the value after the second
delivery differs from the value after the first, falsifying the claimed
idempotence at this input. -/
theorem C4_webhook_replay_counterexample :
    (findUser (handleCheckoutSessionCompleted dbC1 (some metaAtsC4) none none).2 1).map
        User.ppuAtsCredits = some 1
    ∧ (findUser (handleCheckoutSessionCompleted
          (handleCheckoutSessionCompleted dbC1 (some metaAtsC4) none none).2
          (some metaAtsC4) none none).2 1).map User.ppuAtsCredits = some 2
    ∧ (findUser (handleCheckoutSessionCompleted
          (handleCheckoutSessionCompleted dbC1 (some metaAtsC4) none none).2
          (some metaAtsC4) none none).2 1).map User.ppuAtsCredits
        ≠ (findUser (handleCheckoutSessionCompleted dbC1 (some metaAtsC4) none none).2 1).map
            User.ppuAtsCredits := by
  decide

/-- C4 (amended): webhook credit grants are applied once per delivery with
no idempotence: replaying the same ppu_ats (resp. ppu_optimization)
checkout-completed event a second time increments the counter again, so
after the replay the counter equals its value after the first delivery plus
one. -/
theorem C4_amended_webhook_replay_grants_again :
    (∀ (db : DB) (uid : Int) (u : User) (ss pi : Option String),
      findUser db uid = some u → uid ≠ 0 →
      (findUser (handleCheckoutSessionCompleted db
          (some ⟨some "ppu_ats", some uid, none⟩) ss pi).2 uid).map User.ppuAtsCredits
        = some (u.ppuAtsCredits + 1)
      ∧ (findUser (handleCheckoutSessionCompleted
            (handleCheckoutSessionCompleted db (some ⟨some "ppu_ats", some uid, none⟩) ss pi).2
            (some ⟨some "ppu_ats", some uid, none⟩) ss pi).2 uid).map User.ppuAtsCredits
        = some (u.ppuAtsCredits + 2))
    ∧ (∀ (db : DB) (uid : Int) (u : User) (ss pi : Option String),
      findUser db uid = some u → uid ≠ 0 →
      (findUser (handleCheckoutSessionCompleted db
          (some ⟨some "ppu_optimization", some uid, none⟩) ss pi).2 uid).map
          User.ppuOptimizationCredits
        = some (u.ppuOptimizationCredits + 1)
      ∧ (findUser (handleCheckoutSessionCompleted
            (handleCheckoutSessionCompleted db
              (some ⟨some "ppu_optimization", some uid, none⟩) ss pi).2
            (some ⟨some "ppu_optimization", some uid, none⟩) ss pi).2 uid).map
          User.ppuOptimizationCredits
        = some (u.ppuOptimizationCredits + 2)) := by
  constructor
  · intro db uid u ss pi hu h0
    have h1 := handleCheckout_ppu_ats_grant db uid u ss pi hu h0
    have hf1 : findUser (handleCheckoutSessionCompleted db
        (some ⟨some "ppu_ats", some uid, none⟩) ss pi).2 uid = some (incAtsCredit u) := by
      rw [h1, findUser_updateUserRec _ _ incAtsCredit (fun _ => rfl), hu]
      rfl
    have h2 := handleCheckout_ppu_ats_grant (handleCheckoutSessionCompleted db
        (some ⟨some "ppu_ats", some uid, none⟩) ss pi).2 uid (incAtsCredit u) ss pi hf1 h0
    have hf2 : findUser (handleCheckoutSessionCompleted
        (handleCheckoutSessionCompleted db (some ⟨some "ppu_ats", some uid, none⟩) ss pi).2
        (some ⟨some "ppu_ats", some uid, none⟩) ss pi).2 uid
        = some (incAtsCredit (incAtsCredit u)) := by
      rw [h2, findUser_updateUserRec _ _ incAtsCredit (fun _ => rfl), hf1]
      rfl
    rw [hf1, hf2]
    constructor
    · rfl
    · simp [incAtsCredit]
      ring
  · intro db uid u ss pi hu h0
    have h1 := handleCheckout_ppu_opt_grant db uid u ss pi hu h0
    have hf1 : findUser (handleCheckoutSessionCompleted db
        (some ⟨some "ppu_optimization", some uid, none⟩) ss pi).2 uid
        = some (incOptCredit u) := by
      rw [h1, findUser_updateUserRec _ _ incOptCredit (fun _ => rfl), hu]
      rfl
    have h2 := handleCheckout_ppu_opt_grant (handleCheckoutSessionCompleted db
        (some ⟨some "ppu_optimization", some uid, none⟩) ss pi).2 uid (incOptCredit u) ss pi hf1 h0
    have hf2 : findUser (handleCheckoutSessionCompleted
        (handleCheckoutSessionCompleted db
          (some ⟨some "ppu_optimization", some uid, none⟩) ss pi).2
        (some ⟨some "ppu_optimization", some uid, none⟩) ss pi).2 uid
        = some (incOptCredit (incOptCredit u)) := by
      rw [h2, findUser_updateUserRec _ _ incOptCredit (fun _ => rfl), hf1]
      rfl
    rw [hf1, hf2]
    constructor
    · rfl
    · simp [incOptCredit]
      ring

/-- C4 amended-claim witness: both grant kinds at a concrete database go
from 0 to 1 to 2 across the two deliveries. -/
theorem C4_amended_webhook_replay_grants_again_witness :
    (findUser (handleCheckoutSessionCompleted dbC1
        (some ⟨some "ppu_ats", some 1, none⟩) none none).2 1).map User.ppuAtsCredits
      = some 1
    ∧ (findUser (handleCheckoutSessionCompleted
          (handleCheckoutSessionCompleted dbC1 (some ⟨some "ppu_ats", some 1, none⟩) none none).2
          (some ⟨some "ppu_ats", some 1, none⟩) none none).2 1).map User.ppuAtsCredits
      = some 2
    ∧ (findUser (handleCheckoutSessionCompleted dbC1
        (some ⟨some "ppu_optimization", some 1, none⟩) none none).2 1).map
        User.ppuOptimizationCredits
      = some 1
    ∧ (findUser (handleCheckoutSessionCompleted
          (handleCheckoutSessionCompleted dbC1
            (some ⟨some "ppu_optimization", some 1, none⟩) none none).2
          (some ⟨some "ppu_optimization", some 1, none⟩) none none).2 1).map
        User.ppuOptimizationCredits
      = some 2 := by
  obtain ⟨ha, hb⟩ := C4_amended_webhook_replay_grants_again
  have h1 := ha dbC1 1 userC1 none none (by decide) (by decide)
  have h2 := hb dbC1 1 userC1 none none (by decide) (by decide)
  exact ⟨h1.1, h1.2, h2.1, h2.2⟩

/-- State invariant of iterated analyze-changes by a non-premium user:
after n calls within the budget, the user record is untouched and the
resume has lost exactly n clicks. -/
theorem analyzeChangesIter_spec (rid uid : Int) (txt : String) (a : OptAnalysis)
    (u : User) (hprem : u.subscriptionStatus ≠ "premium") :
    ∀ (n : Nat) (db : DB) (r : Resume) (k : Int),
      findUser db uid = some u → findResume db rid = some r →
      r.userId = some uid → jsFalsy r.jobDescription = false →
      r.ppuOptimizationClicksRemaining = some k → (n : Int) ≤ k →
      findUser (analyzeChangesIter rid uid txt a n db) uid = some u
      ∧ findResume (analyzeChangesIter rid uid txt a n db) rid
          = some { r with ppuOptimizationClicksRemaining := some (k - n) } := by
  intro n
  induction n with
  | zero =>
    intro db r k hu hr hown hjd hk _
    refine ⟨hu, ?_⟩
    show findResume db rid = _
    rw [hr]
    norm_num
    rw [← hk]
  | succ n ih =>
    intro db r k hu hr hown hjd hk hle
    have hkpos : 0 < k := by
      push_cast at hle
      omega
    have hstep := analyzeChanges_ppu_success db rid uid u r k txt a hu hr hown hjd hprem hk hkpos
    show findUser (analyzeChangesIter rid uid txt a n
        (analyzeChanges db rid uid (some txt) (some a)).2) uid = some u
      ∧ findResume (analyzeChangesIter rid uid txt a n
        (analyzeChanges db rid uid (some txt) (some a)).2) rid = _
    rw [hstep]
    have hu2 : findUser (updateResumeRec db rid decClicks) uid = some u := by
      rw [findUser_updateResumeRec]
      exact hu
    have hr2 : findResume (updateResumeRec db rid decClicks) rid
        = some { r with ppuOptimizationClicksRemaining := some (k - 1) } := by
      rw [findResume_updateResumeRec _ _ decClicks (fun _ => rfl), hr]
      simp [decClicks, hk]
    have hle2 : (n : Int) ≤ k - 1 := by
      push_cast at hle
      omega
    have hres := ih (updateResumeRec db rid decClicks)
      { r with ppuOptimizationClicksRemaining := some (k - 1) } (k - 1)
      hu2 hr2 hown hjd rfl hle2
    refine ⟨hres.1, ?_⟩
    rw [hres.2]
    have harith : k - 1 - (n : Int) = k - ((n : Int) + 1) := by ring
    rw [harith]
    norm_num

/-- C5: for a non-premium user on an owned resume whose click budget is 5,
five consecutive analyze-changes calls succeed, reporting remaining counts
4,3,2,1,0 and leaving the stored budget at exactly 0; the sixth call is
answered 403 Forbidden reporting ppuClicksRemaining 0 with no further
decrement; and a successful job-optimization call — the consumption of a
newly purchased optimization credit — sets the budget back to 5 regardless
of its prior value. -/
theorem C5_click_budget_depletion (db : DB) (rid uid : Int) (u : User) (r : Resume)
    (txt : String) (a : OptAnalysis)
    (hu : findUser db uid = some u) (hr : findResume db rid = some r)
    (hown : r.userId = some uid) (hjd : jsFalsy r.jobDescription = false)
    (hprem : u.subscriptionStatus ≠ "premium")
    (hk : r.ppuOptimizationClicksRemaining = some 5) :
    (∀ i : Nat, i < 5 →
      (analyzeChanges (analyzeChangesIter rid uid txt a i db) rid uid (some txt) (some a)).1
        = { plainResp 200 with
              message := some "Analysis of changes completed.",
              resumeId := some rid,
              optimizationScore := some a.optimizationScore,
              keywordAnalysis := some a.keywordAnalysis,
              suggestions := some a.suggestions,
              ppuClicksRemaining := some (4 - (i : Int)) })
    ∧ findResume (analyzeChangesIter rid uid txt a 5 db) rid
        = some { r with ppuOptimizationClicksRemaining := some 0 }
    ∧ analyzeChanges (analyzeChangesIter rid uid txt a 5 db) rid uid (some txt) (some a)
        = ({ errorResp 403 "Forbidden: No PPU analysis clicks remaining for this optimization session." with
               ppuClicksRemaining := some 0 },
           analyzeChangesIter rid uid txt a 5 db)
    ∧ (∀ (db2 : DB) (rid2 uid2 : Int) (u2 : User) (r2 : Resume) (url : String)
          (a2 : OptAnalysis),
        findUser db2 uid2 = some u2 → findResume db2 rid2 = some r2 →
        r2.userId = some uid2 → jsFalsy r2.jobDescription = false →
        u2.subscriptionStatus ≠ "premium" → 0 < u2.ppuOptimizationCredits →
        r2.fileUrl = some url →
        (findResume (jobOptimization db2 rid2 uid2 (some a2)).2 rid2).map
            Resume.ppuOptimizationClicksRemaining = some (some 5)) := by
  refine ⟨?_, ?_, ?_, ?_⟩
  · intro i hi
    have hle : (i : Int) ≤ 5 := by
      omega
    obtain ⟨hui, hri⟩ :=
      analyzeChangesIter_spec rid uid txt a u hprem i db r 5 hu hr hown hjd hk hle
    have hkpos : 0 < 5 - (i : Int) := by
      omega
    have hstep := analyzeChanges_ppu_success (analyzeChangesIter rid uid txt a i db) rid uid u
      { r with ppuOptimizationClicksRemaining := some (5 - (i : Int)) } (5 - (i : Int)) txt a
      hui hri hown hjd hprem rfl hkpos
    have harith : 5 - (i : Int) - 1 = 4 - (i : Int) := by ring
    rw [harith] at hstep
    rw [hstep]
  · obtain ⟨hu5, hr5⟩ :=
      analyzeChangesIter_spec rid uid txt a u hprem 5 db r 5 hu hr hown hjd hk (by norm_num)
    rw [hr5]
    norm_num
  · obtain ⟨hu5, hr5⟩ :=
      analyzeChangesIter_spec rid uid txt a u hprem 5 db r 5 hu hr hown hjd hk (by norm_num)
    have hr5z : findResume (analyzeChangesIter rid uid txt a 5 db) rid
        = some { r with ppuOptimizationClicksRemaining := some 0 } := by
      rw [hr5]
      norm_num
    exact analyzeChanges_ppu_exhausted (analyzeChangesIter rid uid txt a 5 db) rid uid u
      { r with ppuOptimizationClicksRemaining := some 0 } txt (some a)
      hu5 hr5z hown hjd hprem rfl
  · intro db2 rid2 uid2 u2 r2 url a2 hu2 hr2 hown2 hjd2 hprem2 hc2 hfile2
    rw [jobOptimization_ppu_success db2 rid2 uid2 u2 r2 url a2 hu2 hr2 hown2 hjd2 hprem2
      hc2 hfile2]
    rw [findResume_updateResumeRec _ _ (persistOptResult a2) (fun _ => rfl),
        findResume_updateResumeRec _ _ (setStatus "job_opt_pending") (fun _ => rfl),
        findResume_updateResumeRec _ _ (setClicks 5) (fun _ => rfl),
        findResume_updateUserRec, hr2]
    simp [persistOptResult, setStatus, setClicks]

/-- C5 witness: depletion at a concrete database — the first call reports
4 remaining, the stored budget reaches 0 after five calls, the sixth call
answers 403 reporting 0, and a job-optimization call resets the budget
to 5. -/
theorem C5_click_budget_depletion_witness :
    (analyzeChanges (analyzeChangesIter 10 1 "text" optW 0 dbC5) 10 1
        (some "text") (some optW)).1
        = { plainResp 200 with
              message := some "Analysis of changes completed.",
              resumeId := some 10,
              optimizationScore := some 80,
              keywordAnalysis := some "kw",
              suggestions := some "sug",
              ppuClicksRemaining := some 4 }
    ∧ findResume (analyzeChangesIter 10 1 "text" optW 5 dbC5) 10
        = some { resumeC5 with ppuOptimizationClicksRemaining := some 0 }
    ∧ analyzeChanges (analyzeChangesIter 10 1 "text" optW 5 dbC5) 10 1
        (some "text") (some optW)
        = ({ errorResp 403 "Forbidden: No PPU analysis clicks remaining for this optimization session." with
               ppuClicksRemaining := some 0 },
           analyzeChangesIter 10 1 "text" optW 5 dbC5)
    ∧ (findResume (jobOptimization dbC5 10 1 (some optW)).2 10).map
        Resume.ppuOptimizationClicksRemaining = some (some 5) := by
  have h := C5_click_budget_depletion dbC5 10 1 userC6 resumeC5 "text" optW
    (by decide) (by decide) (by decide) (by decide) (by decide) (by decide)
  refine ⟨?_, h.2.1, h.2.2.1, ?_⟩
  · have h0 := h.1 0 (by norm_num)
    simpa [optW] using h0
  · exact h.2.2.2 dbC5 10 1 userC6 resumeC5 "blob-url" optW (by decide) (by decide)
      (by decide) (by decide) (by decide) (by decide) (by decide)

end ResServer
